import Mathlib

/-!
Shallow embedding of `src/database.py` (class `DatabaseManager`), the
data-access layer of the purchase-requests system.

The PostgreSQL store is modelled as an explicit `DBState`: a list of
`purchase_requests` rows, a list of `request_items` rows, and the next
generated ids.  The connection pool and the process-wide connectivity flag
are modelled by a `Manager` record (`is_connected` is the flag set by
`_initialize_pool`; `pool_present` says whether `self.connection_pool` is
non-None; `pool_acquire_ok` says whether `getconn()` succeeds).

Python dictionaries passed by callers are modelled as records of `Option`
fields; a dict access on a missing key raises `KeyError`, modelled by
the `Except PyErr` result of `save_request` (psycopg2 `Error`s are caught
inside the operations, `KeyError` is not).  Fallible SQL statements take an
explicit fault parameter (`Option String` = the psycopg2 error message, if
the statement raises).  Each operation returns exactly what the Python
method returns, paired with the persistent state after the operation
(committed changes only; an uncommitted transaction is discarded when the
connection is returned to the pool, which is what the psycopg2 `putconn`
does with a connection holding an open transaction).
-/

/-- A row of the `purchase_requests` table. -/
structure RequestRow where
  id : Nat
  request_number : Nat
  request_date_jalali : String
  request_date_gregorian : Int
  requesting_unit : String
  requester_name : String
  pdf_file_path : String
  year : Int
  month : Int
  month_name : String
  status : String
  deleted_at : Option Int
  deriving DecidableEq, Repr

/-- A row of the `request_items` table. -/
structure ItemRow where
  id : Nat
  request_id : Nat
  row_number : Nat
  description : String
  quantity : Int
  unit : String
  purchase_location : String
  notes : String
  deriving DecidableEq, Repr

/-- The persistent database state: both tables plus the id sequences. -/
structure DBState where
  requests : List RequestRow
  items : List ItemRow
  next_request_id : Nat
  next_item_id : Nat
  deriving DecidableEq, Repr

/-- The `DatabaseManager` connection state: `is_connected` is the flag set
by `_initialize_pool`, `pool_present` models `self.connection_pool` being
non-None, `pool_acquire_ok` models `getconn()` succeeding. -/
structure Manager where
  is_connected : Bool
  pool_present : Bool
  pool_acquire_ok : Bool
  deriving DecidableEq, Repr

/-- The `request_data` dict passed to `save_request`; `none` = key absent. -/
structure ReqDict where
  request_number : Option Nat
  request_date_jalali : Option String
  request_date_gregorian : Option Int
  requesting_unit : Option String
  requester_name : Option String
  pdf_file_path : Option String
  year : Option Int
  month : Option Int
  month_name : Option String
  status : Option String
  deriving DecidableEq, Repr

/-- An element of the `items_data` list passed to `save_request`. -/
structure ItemDict where
  row_number : Option Nat
  description : Option String
  quantity : Option Int
  unit : Option String
  purchase_location : Option String
  notes : Option String
  deriving DecidableEq, Repr

/-- An exception escaping an operation (only `KeyError` can: psycopg2
`Error`s are caught by the `except` clauses). -/
inductive PyErr where
  | keyError (key : String)
  deriving DecidableEq, Repr

/-- Models a dict access `d[k]`: returns the value or raises `KeyError(k)`. -/
def getKey (k : String) : Option α → Except String α
  | some v => .ok v
  | none => .error k

instance {ε α : Type} [DecidableEq ε] [DecidableEq α] : DecidableEq (Except ε α) :=
  fun x y =>
    match x, y with
    | .ok a, .ok b =>
      if h : a = b then isTrue (by rw [h])
      else isFalse (by intro hh; cases hh; exact h rfl)
    | .ok _, .error _ => isFalse (by intro hh; cases hh)
    | .error _, .ok _ => isFalse (by intro hh; cases hh)
    | .error e, .error f =>
      if h : e = f then isTrue (by rw [h])
      else isFalse (by intro hh; cases hh; exact h rfl)

/-- Error message returned when `self.is_connected` is false. -/
def msg_not_connected : String := "اتصال به دیتابیس برقرار نیست"

/-- Error message returned when `get_connection()` yields no connection. -/
def msg_conn_failed : String := "خطا در دریافت اتصال"

/-- True when `get_connection()` succeeds: the pool exists and `getconn()` works. -/
def Manager.hasConn (m : Manager) : Bool :=
  m.pool_present && m.pool_acquire_ok

/-- Builds the `purchase_requests` row inserted by `save_request`, in the
order the Python tuple evaluates the dict accesses; the first missing
required key is the `KeyError` raised.  `status` uses
`request_data.get` with key status and default pending; `deleted_at` gets the column
default NULL. -/
def buildRequestRow (rid : Nat) (d : ReqDict) : Except String RequestRow := do
  let n ← getKey "request_number" d.request_number
  let dj ← getKey "request_date_jalali" d.request_date_jalali
  let dg ← getKey "request_date_gregorian" d.request_date_gregorian
  let ru ← getKey "requesting_unit" d.requesting_unit
  let rn ← getKey "requester_name" d.requester_name
  let pf ← getKey "pdf_file_path" d.pdf_file_path
  let y ← getKey "year" d.year
  let mo ← getKey "month" d.month
  let mn ← getKey "month_name" d.month_name
  pure { id := rid, request_number := n, request_date_jalali := dj,
         request_date_gregorian := dg, requesting_unit := ru,
         requester_name := rn, pdf_file_path := pf, year := y, month := mo,
         month_name := mn, status := d.status.getD "pending",
         deleted_at := none }

/-- Builds one `request_items` row from an item dict
(purchase_location is the one optional key, defaulting to تهران). -/
def buildItemRow (reqId : Nat) (iid : Nat) (d : ItemDict) : Except String ItemRow := do
  let rn ← getKey "row_number" d.row_number
  let de ← getKey "description" d.description
  let q ← getKey "quantity" d.quantity
  let u ← getKey "unit" d.unit
  let no ← getKey "notes" d.notes
  pure { id := iid, request_id := reqId, row_number := rn, description := de,
         quantity := q, unit := u,
         purchase_location := d.purchase_location.getD "تهران", notes := no }

/-- Builds the full `items_to_insert` list (the list comprehension in
`save_request`): the first missing key of the first incomplete item dict is
the `KeyError` raised. -/
def buildItems (reqId : Nat) (firstId : Nat) : List ItemDict → Except String (List ItemRow)
  | [] => .ok []
  | d :: ds => do
    let r ← buildItemRow reqId firstId d
    let rs ← buildItems reqId (firstId + 1) ds
    pure (r :: rs)

/-- The state after `connection.commit()` in `save_request`: the request
row and all its item rows become visible, the id sequences advance. -/
def commitSave (st : DBState) (row : RequestRow) (itemRows : List ItemRow) : DBState :=
  { requests := st.requests ++ [row],
    items := st.items ++ itemRows,
    next_request_id := st.next_request_id + 1,
    next_item_id := st.next_item_id + itemRows.length }

/-- Models `save_request(request_data, items_data)`.

`request_fault` / `items_fault` model psycopg2 raising an `Error` at the
request `INSERT` / the items `executemany` (the attached string is the
database error message); `except Error` catches these, rolls the
transaction back and returns `(False, None, message)`.  A `KeyError` from
a dict access is not caught: it escapes as `.error`, and the open
transaction is discarded (nothing was committed).  The returned `DBState`
is the persistent state after the call. -/
def save_request (m : Manager) (request_fault items_fault : Option String)
    (st : DBState) (request_data : ReqDict) (items_data : List ItemDict) :
    Except PyErr (Bool × Option Nat × Option String) × DBState :=
  if ¬ m.is_connected then
    (.ok (false, none, some msg_not_connected), st)
  else if ¬ m.hasConn then
    (.ok (false, none, some msg_conn_failed), st)
  else
    match buildRequestRow st.next_request_id request_data with
    | .error k => (.error (.keyError k), st)
    | .ok row =>
      match request_fault with
      | some e => (.ok (false, none, some ("خطا در ذخیره درخواست: " ++ e)), st)
      | none =>
        if items_data.isEmpty then
          (.ok (true, some st.next_request_id, none), commitSave st row [])
        else
          match buildItems st.next_request_id st.next_item_id items_data with
          | .error k => (.error (.keyError k), st)
          | .ok itemRows =>
            match items_fault with
            | some e =>
              (.ok (false, none, some ("خطا در ذخیره درخواست: " ++ e)), st)
            | none =>
              (.ok (true, some st.next_request_id, none), commitSave st row itemRows)

/-- Case-insensitive lowering of a string (models SQL `ILIKE` folding). -/
def lowerChars (s : String) : List Char := s.toLower.toList

/-- Holds when `pat` occurs at the head of `l`. -/
def leadsWith : List Char → List Char → Bool
  | [], _ => true
  | _ :: _, [] => false
  | a :: as, b :: bs => a == b && leadsWith as bs

/-- Holds when `pat` occurs contiguously somewhere in `l`. -/
def hasSub (pat : List Char) : List Char → Bool
  | [] => leadsWith pat []
  | c :: rest => leadsWith pat (c :: rest) || hasSub pat rest

/-- Models a column ILIKE match with the pattern wrapped in percent
signs: a case-insensitive substring match. -/
def ciContains (hay pat : String) : Bool :=
  hasSub (lowerChars pat) (lowerChars hay)

/-- The `valid_statuses` list of `update_request_status`. -/
def valid_statuses : List String := ["pending", "approved", "rejected", "completed"]

/-- The rejection message of `update_request_status` for an invalid status
(an f-string joining `valid_statuses`). -/
def msg_invalid_status : String :=
  "وضعیت نامعتبر. مقادیر مجاز: " ++ String.intercalate ", " valid_statuses

/-- The not-found message of `update_request_status`. -/
def msg_status_not_found : String := "درخواست مورد نظر یافت نشد"

/-- Stands for the Python runtime message of the `AttributeError` raised by
`self.connection_pool.getconn()` when `connection_pool` is None (pool
construction failed): str(e) names the missing `getconn` attribute of
None. -/
def attrErrorMsg : String := "NoneType object has no attribute getconn"

/-- Stands for the message of the psycopg2 `PoolError` raised by
`getconn()` when the pool is exhausted. -/
def poolErrorMsg : String := "connection pool exhausted"

/-- Models `update_request_status(request_id, new_status)`.

Validates `new_status` first (before any pool access).  It does not
consult `is_connected`: it calls `self.connection_pool.getconn()` directly
inside a `try`, so a missing pool surfaces as an `AttributeError` caught by
`except Exception` and wrapped in a generic message.  The conditional
`UPDATE ... RETURNING` matches every row with the id (deleted ones too);
zero matches yield the not-found result before any commit. -/
def update_request_status (m : Manager) (st : DBState)
    (request_id : Nat) (new_status : String) :
    (Bool × Option String) × DBState :=
  if ¬ valid_statuses.contains new_status then
    ((false, some msg_invalid_status), st)
  else if ¬ m.pool_present then
    ((false, some ("خطا در تغییر وضعیت: " ++ attrErrorMsg)), st)
  else if ¬ m.pool_acquire_ok then
    ((false, some ("خطا در تغییر وضعیت: " ++ poolErrorMsg)), st)
  else if ¬ st.requests.any (fun r => r.id == request_id) then
    ((false, some msg_status_not_found), st)
  else
    ((true, none),
     { st with requests := st.requests.map (fun r =>
         if r.id == request_id then { r with status := new_status } else r) })

/-- Models `test_connection()`: no `is_connected` check; `get_connection()` yields
None on a missing/broken pool, and the method then returns False with no
message.  `version_query_ok` models the `SELECT version()` probe
succeeding. -/
def test_connection (m : Manager) (version_query_ok : Bool) : Bool :=
  if m.hasConn then version_query_ok else false

/-- The not-deleted/not-found message of `restore_request`. -/
def msg_restore_not_found : String := "درخواست یافت نشد یا حذف نشده است"

/-- Models `restore_request(request_id)`: `UPDATE ... SET deleted_at = NULL WHERE
id = %s AND deleted_at IS NOT NULL RETURNING request_number`; commits only
when a row matched, otherwise returns a failure with the transaction
discarded (no visible change either way in that branch). -/
def restore_request (m : Manager) (st : DBState) (request_id : Nat) :
    (Bool × Option String) × DBState :=
  if ¬ m.is_connected then
    ((false, some msg_not_connected), st)
  else if ¬ m.hasConn then
    ((false, some msg_conn_failed), st)
  else if st.requests.any (fun r => r.id == request_id && r.deleted_at.isSome) then
    ((true, none),
     { st with requests := st.requests.map (fun r =>
         if r.id == request_id && r.deleted_at.isSome then
           { r with deleted_at := none } else r) })
  else
    ((false, some msg_restore_not_found), st)

/-- The projection returned by `check_duplicate_request_number`. -/
structure DupInfo where
  id : Nat
  request_number : Nat
  request_date_jalali : String
  requesting_unit : String
  requester_name : String
  status : String
  deriving DecidableEq, Repr

/-- Models `check_duplicate_request_number(request_number)`: matches only active
rows (`deleted_at IS NULL`); returns `(False, None)` alike when not
connected, when no connection could be acquired, and when no active row
has the number. -/
def check_duplicate_request_number (m : Manager) (st : DBState)
    (request_number : Nat) : Bool × Option DupInfo :=
  if ¬ m.is_connected then
    (false, none)
  else if ¬ m.hasConn then
    (false, none)
  else
    match st.requests.find? (fun r =>
        r.request_number == request_number && r.deleted_at.isNone) with
    | some r => (true, some ⟨r.id, r.request_number, r.request_date_jalali,
                            r.requesting_unit, r.requester_name, r.status⟩)
    | none => (false, none)

/-- Models `ORDER BY row_number` on item rows. -/
def rowNumLe (a b : ItemRow) : Prop := a.row_number ≤ b.row_number

instance : DecidableRel rowNumLe := fun a b => Nat.decLe a.row_number b.row_number

/-- Models `get_request_by_id(request_id)`: `SELECT * FROM purchase_requests WHERE
id = %s` (no `deleted_at` filter), plus the items ordered by
`row_number`. -/
def get_request_by_id (m : Manager) (st : DBState) (request_id : Nat) :
    Option (RequestRow × List ItemRow) :=
  if ¬ m.is_connected then none
  else if ¬ m.hasConn then none
  else
    match st.requests.find? (fun r => r.id == request_id) with
    | none => none
    | some r =>
      some (r, List.insertionSort rowNumLe
        (st.items.filter (fun i => i.request_id == request_id)))

/-- Models `get_request_by_number(request_number)`: `SELECT * FROM
purchase_requests WHERE request_number = %s` (no `deleted_at` filter). -/
def get_request_by_number (m : Manager) (st : DBState)
    (request_number : Nat) : Option RequestRow :=
  if ¬ m.is_connected then none
  else if ¬ m.hasConn then none
  else st.requests.find? (fun r => r.request_number == request_number)

/-- A row of the `search_in_items` result set. -/
structure ItemSearchRow where
  id : Nat
  request_number : Nat
  request_date_jalali : String
  request_date_gregorian : Int
  requesting_unit : String
  requester_name : String
  pdf_file_path : String
  status : String
  matched_description : String
  matched_notes : String
  row_number : Nat
  deriving DecidableEq, Repr

/-- The tuple selected by `search_in_items` for a joined pair. -/
def mkItemSearchRow (pr : RequestRow) (ri : ItemRow) : ItemSearchRow :=
  { id := pr.id, request_number := pr.request_number,
    request_date_jalali := pr.request_date_jalali,
    request_date_gregorian := pr.request_date_gregorian,
    requesting_unit := pr.requesting_unit,
    requester_name := pr.requester_name,
    pdf_file_path := pr.pdf_file_path, status := pr.status,
    matched_description := ri.description, matched_notes := ri.notes,
    row_number := ri.row_number }

/-- Models `ORDER BY pr.request_date_gregorian DESC, ri.row_number`. -/
def itemSearchOrder (a b : ItemSearchRow) : Prop :=
  b.request_date_gregorian < a.request_date_gregorian ∨
    (b.request_date_gregorian = a.request_date_gregorian ∧
      a.row_number ≤ b.row_number)

instance : DecidableRel itemSearchOrder := fun _ _ =>
  inferInstanceAs (Decidable (_ ∨ _))

/-- The not-connected message of `search_in_items`. -/
def msg_items_not_connected : String := "دیتابیس متصل نیست"

/-- Models `search_in_items(search_text)`: `SELECT DISTINCT ... FROM
purchase_requests pr INNER JOIN request_items ri ON pr.id = ri.request_id
WHERE ri.description ILIKE %s OR ri.notes ILIKE %s ORDER BY
pr.request_date_gregorian DESC, ri.row_number` — no `deleted_at` filter.
Returns `(results, None)` on success, `(None, message)` on failure. -/
def search_in_items (m : Manager) (st : DBState) (search_text : String) :
    Option (List ItemSearchRow) × Option String :=
  if ¬ m.is_connected then
    (none, some msg_items_not_connected)
  else if ¬ m.pool_present then
    (none, some attrErrorMsg)
  else if ¬ m.pool_acquire_ok then
    (none, some poolErrorMsg)
  else
    let joined := st.requests.flatMap (fun pr =>
      (st.items.filter (fun ri =>
          ri.request_id == pr.id &&
            (ciContains ri.description search_text ||
             ciContains ri.notes search_text))).map
        (fun ri => mkItemSearchRow pr ri))
    (some (List.insertionSort itemSearchOrder joined.dedup), none)

/-- The `filters` dict of `search_requests`; `none` = key absent.  A
present key still only activates its clause when the Python value is
truthy (the Python membership-and-truthiness guard on each key): a number activates when
non-zero, a string when non-empty; the two date bounds are modelled as
integers standing for non-empty date values. -/
structure Filters where
  request_number : Option Nat
  requester_name : Option String
  requesting_unit : Option String
  year : Option Int
  month : Option Int
  status : Option String
  date_from : Option Int
  date_to : Option Int
  deriving DecidableEq, Repr

/-- Clause `pr.request_number = %s`, applied only when present and truthy. -/
def matchReqNum (o : Option Nat) (r : RequestRow) : Bool :=
  match o with
  | some n => if n == 0 then true else r.request_number == n
  | none => true

/-- Clause `pr.requester_name ILIKE %...%`, applied only when present and truthy. -/
def matchRequester (o : Option String) (r : RequestRow) : Bool :=
  match o with
  | some s => if s == "" then true else ciContains r.requester_name s
  | none => true

/-- Clause `pr.requesting_unit ILIKE %...%`, applied only when present and truthy. -/
def matchUnit (o : Option String) (r : RequestRow) : Bool :=
  match o with
  | some s => if s == "" then true else ciContains r.requesting_unit s
  | none => true

/-- Clause `pr.year = %s`, applied only when present and truthy. -/
def matchYear (o : Option Int) (r : RequestRow) : Bool :=
  match o with
  | some y => if y == 0 then true else r.year == y
  | none => true

/-- Clause `pr.month = %s`, applied only when present and truthy. -/
def matchMonth (o : Option Int) (r : RequestRow) : Bool :=
  match o with
  | some mo => if mo == 0 then true else r.month == mo
  | none => true

/-- Clause `pr.status = %s`, applied only when present and truthy. -/
def matchStatus (o : Option String) (r : RequestRow) : Bool :=
  match o with
  | some s => if s == "" then true else r.status == s
  | none => true

/-- Clause `pr.request_date_gregorian >= %s`, applied only when present. -/
def matchDateFrom (o : Option Int) (r : RequestRow) : Bool :=
  match o with
  | some d => d ≤ r.request_date_gregorian
  | none => true

/-- Clause `pr.request_date_gregorian <= %s`, applied only when present. -/
def matchDateTo (o : Option Int) (r : RequestRow) : Bool :=
  match o with
  | some d => r.request_date_gregorian ≤ d
  | none => true

/-- The conjunction of the dynamically appended `AND` clauses of
`search_requests`. -/
def matchesFilters (f : Filters) (r : RequestRow) : Bool :=
  matchReqNum f.request_number r && matchRequester f.requester_name r &&
  matchUnit f.requesting_unit r && matchYear f.year r &&
  matchMonth f.month r && matchStatus f.status r &&
  matchDateFrom f.date_from r && matchDateTo f.date_to r

/-- A row of the `search_requests` result set: `pr.*` plus
`COALESCE(COUNT(ri.id), 0) as items_count`. -/
structure SearchRow where
  request : RequestRow
  items_count : Nat
  deriving DecidableEq, Repr

/-- Models `ORDER BY pr.request_number DESC`. -/
def reqNumDesc (a b : SearchRow) : Prop :=
  b.request.request_number ≤ a.request.request_number

instance : DecidableRel reqNumDesc := fun a b =>
  Nat.decLe b.request.request_number a.request.request_number

instance : IsTotal SearchRow reqNumDesc :=
  ⟨fun a b => (Nat.le_total a.request.request_number b.request.request_number).symm⟩

instance : IsTrans SearchRow reqNumDesc :=
  ⟨fun _ _ _ hab hbc => Nat.le_trans hbc hab⟩

/-- Models `search_requests(filters, include_deleted)`: left join with a grouped
item count, the dynamically composed `AND` clauses, `deleted_at IS NULL`
unless `include_deleted`, `ORDER BY pr.request_number DESC`.  Returns `[]`
when not connected or no connection is available. -/
def search_requests (m : Manager) (st : DBState) (f : Filters)
    (include_deleted : Bool) : List SearchRow :=
  if ¬ m.is_connected then []
  else if ¬ m.hasConn then []
  else
    List.insertionSort reqNumDesc
      ((st.requests.filter (fun r =>
          (include_deleted || r.deleted_at.isNone) && matchesFilters f r)).map
        (fun r => { request := r,
                    items_count :=
                      (st.items.filter (fun i => i.request_id == r.id)).length }))

/-- The dict returned by `get_statistics`. -/
structure Stats where
  total : Nat
  pending : Nat
  approved : Nat
  rejected : Nat
  completed : Nat
  deriving DecidableEq, Repr

/-- The zeroed statistics dict. -/
def zeroStats : Stats :=
  { total := 0, pending := 0, approved := 0, rejected := 0, completed := 0 }

/-- Models `get_statistics()`: five `COUNT(*)` queries, each filtered on
`deleted_at IS NULL`, the last four additionally on one status literal;
returns the zeroed dict when not connected or no connection is
available. -/
def get_statistics (m : Manager) (st : DBState) : Stats :=
  if ¬ m.is_connected then zeroStats
  else if ¬ m.hasConn then zeroStats
  else
    { total := st.requests.countP (fun r => r.deleted_at.isNone),
      pending := st.requests.countP (fun r =>
        r.status == "pending" && r.deleted_at.isNone),
      approved := st.requests.countP (fun r =>
        r.status == "approved" && r.deleted_at.isNone),
      rejected := st.requests.countP (fun r =>
        r.status == "rejected" && r.deleted_at.isNone),
      completed := st.requests.countP (fun r =>
        r.status == "completed" && r.deleted_at.isNone) }

/-! ## Concrete fixtures used by witnesses and counterexamples -/

/-- A manager whose pool was constructed and acquires fine. -/
def connM : Manager := ⟨true, true, true⟩

/-- The manager state after pool construction failed: the flag is false
and `self.connection_pool` stayed None. -/
def downM : Manager := ⟨false, false, true⟩

/-- The empty database. -/
def st0 : DBState := ⟨[], [], 1, 1⟩

/-- A complete request dict (no `status` key). -/
def goodReq : ReqDict :=
  ⟨some 1001, some "1402/01/01", some 20230321, some "برق", some "احمدی",
   some "a.pdf", some 1402, some 1, some "فروردین", none⟩

/-- A request dict missing the required `request_number` key. -/
def badReq : ReqDict :=
  ⟨none, some "1402/01/01", some 20230321, some "برق", some "احمدی",
   some "a.pdf", some 1402, some 1, some "فروردین", none⟩

/-- A complete request dict carrying `status = "archived"`, a value
outside the valid enumeration. -/
def archReq : ReqDict :=
  ⟨some 1001, some "1402/01/01", some 20230321, some "برق", some "احمدی",
   some "a.pdf", some 1402, some 1, some "فروردین", some "archived"⟩

/-- A complete item dict. -/
def item1 : ItemDict :=
  ⟨some 1, some "کابل برق", some 10, some "متر", none, some "-"⟩

/-! ## Helper lemmas -/

/-- Lemma: `buildItems` produces exactly one row per item dict. -/
theorem buildItems_length (reqId : Nat) :
    ∀ (l : List ItemDict) (fid : Nat) (rs : List ItemRow),
      buildItems reqId fid l = .ok rs → rs.length = l.length := by
  intro l
  induction l with
  | nil =>
    intro fid rs h
    simp only [buildItems] at h
    cases h
    rfl
  | cons d ds ih =>
    intro fid rs h
    simp only [buildItems, Bind.bind, Except.bind] at h
    cases hd : buildItemRow reqId fid d with
    | error k => rw [hd] at h; simp at h
    | ok r =>
      rw [hd] at h
      cases hds : buildItems reqId (fid + 1) ds with
      | error k => rw [hds] at h; simp at h
      | ok rs2 =>
        rw [hds] at h
        simp only [pure, Except.pure, Except.ok.injEq] at h
        subst h
        simp [ih (fid + 1) rs2 hds]

/-- Exhaustive outcome analysis of `save_request`: either the whole
request (row plus every item row) is committed, or the persistent state is
untouched and the result is not a success. -/
theorem save_request_cases (m : Manager) (rf itf : Option String)
    (st : DBState) (rd : ReqDict) (items : List ItemDict) :
    (∃ row itemRows,
       buildRequestRow st.next_request_id rd = .ok row ∧
       buildItems st.next_request_id st.next_item_id items = .ok itemRows ∧
       save_request m rf itf st rd items =
         (.ok (true, some st.next_request_id, none), commitSave st row itemRows)) ∨
    ((save_request m rf itf st rd items).2 = st ∧
     ∀ rid, (save_request m rf itf st rd items).1 ≠ .ok (true, some rid, none)) := by
  unfold save_request
  split
  · right; exact ⟨rfl, by intro rid h; simp at h⟩
  split
  · right; exact ⟨rfl, by intro rid h; simp at h⟩
  split
  · right; exact ⟨rfl, by intro rid h; simp at h⟩
  next row hrow =>
    split
    · right; exact ⟨rfl, by intro rid h; simp at h⟩
    next hrf =>
      split
      · next hemp =>
        left
        refine ⟨row, [], hrow, ?_, rfl⟩
        rw [List.isEmpty_iff.mp hemp]
        rfl
      · next hemp =>
        split
        · right; exact ⟨rfl, by intro rid h; simp at h⟩
        next itemRows hitems =>
          split
          · right; exact ⟨rfl, by intro rid h; simp at h⟩
          · left; exact ⟨row, itemRows, hrow, hitems, rfl⟩

/-! ## Claims -/

/-- C1: `save_request` is atomic — for every request record and item list,
either the request row and every one of its item rows are committed
together, or the persistent state is left exactly as it was (in
particular, when item insertion fails after the request insert, the
rollback leaves no trace of the request). -/
theorem save_request_atomic (m : Manager) (rf itf : Option String)
    (st : DBState) (rd : ReqDict) (items : List ItemDict) :
    (∀ rid, (save_request m rf itf st rd items).1 = .ok (true, some rid, none) →
       ∃ row itemRows,
         buildRequestRow st.next_request_id rd = .ok row ∧
         buildItems st.next_request_id st.next_item_id items = .ok itemRows ∧
         itemRows.length = items.length ∧
         (save_request m rf itf st rd items).2.requests = st.requests ++ [row] ∧
         (save_request m rf itf st rd items).2.items = st.items ++ itemRows) ∧
    ((save_request m rf itf st rd items).1 ≠
        .ok (true, some st.next_request_id, none) →
       (save_request m rf itf st rd items).2 = st) := by
  rcases save_request_cases m rf itf st rd items with
    ⟨row, itemRows, hrow, hitems, heq⟩ | ⟨hst, hne⟩
  · constructor
    · intro rid _
      exact ⟨row, itemRows, hrow, hitems,
        buildItems_length st.next_request_id items st.next_item_id itemRows hitems,
        by rw [heq]; rfl, by rw [heq]; rfl⟩
    · intro hne
      exact absurd (by rw [heq]) hne
  · constructor
    · intro rid h
      exact absurd h (hne rid)
    · intro _
      exact hst

/-- C1 witness: a failing items `executemany` on a non-empty item list
leaves the empty database unchanged. -/
theorem save_request_atomic_witness :
    (save_request connM none (some "foreign key violation") st0 goodReq [item1]).2 = st0 :=
  (save_request_atomic connM none (some "foreign key violation") st0 goodReq [item1]).2
    (by decide)

/-- C2 counterexample: on a request dict missing `request_number`, the
`KeyError` escapes `save_request` (modelled as `.error`) instead of a
structured `(false, null, message)` triple. -/
theorem save_request_raises_on_missing_field :
    (save_request connM none none st0 badReq []).1 =
      .error (.keyError "request_number") := by
  decide

/-- C2 (amended): whenever the request dict and every item dict contain
all required fields, `save_request` returns a structured triple — success
is `(true, generated-id, null)`, failure is `(false, null, message)`;
but a missing required field in the request dict surfaces as an escaping
`KeyError` naming the first missing field, not as a structured result. -/
theorem save_request_result_shape (m : Manager) (rf itf : Option String)
    (st : DBState) (rd : ReqDict) (items : List ItemDict) :
    ((∃ row, buildRequestRow st.next_request_id rd = .ok row) →
     (∃ rows, buildItems st.next_request_id st.next_item_id items = .ok rows) →
     ∃ r, (save_request m rf itf st rd items).1 = .ok r ∧
       ((r.1 = true ∧ r.2.1 = some st.next_request_id ∧ r.2.2 = none) ∨
        (r.1 = false ∧ r.2.1 = none ∧ ∃ msg, r.2.2 = some msg))) ∧
    (∀ k, m.is_connected = true → m.hasConn = true →
       buildRequestRow st.next_request_id rd = .error k →
       (save_request m rf itf st rd items).1 = .error (.keyError k)) := by
  constructor
  · rintro ⟨row, hrow⟩ ⟨rows, hrows⟩
    unfold save_request
    split
    · exact ⟨_, rfl, Or.inr ⟨rfl, rfl, _, rfl⟩⟩
    split
    · exact ⟨_, rfl, Or.inr ⟨rfl, rfl, _, rfl⟩⟩
    split
    · next k hk => rw [hrow] at hk; cases hk
    next row2 hrow2 =>
      split
      · exact ⟨_, rfl, Or.inr ⟨rfl, rfl, _, rfl⟩⟩
      split
      · exact ⟨_, rfl, Or.inl ⟨rfl, rfl, rfl⟩⟩
      split
      · next k hk => rw [hrows] at hk; cases hk
      split
      · exact ⟨_, rfl, Or.inr ⟨rfl, rfl, _, rfl⟩⟩
      · exact ⟨_, rfl, Or.inl ⟨rfl, rfl, rfl⟩⟩
  · intro k hc hh hk
    unfold save_request
    simp [hc, hh, hk]

/-- C2 witness: on a complete request dict with no items, the amended
theorem yields the concrete structured success triple. -/
theorem save_request_result_shape_witness :
    ∃ r, (save_request connM none none st0 goodReq []).1 = .ok r ∧
      ((r.1 = true ∧ r.2.1 = some st0.next_request_id ∧ r.2.2 = none) ∨
       (r.1 = false ∧ r.2.1 = none ∧ ∃ msg, r.2.2 = some msg)) :=
  (save_request_result_shape connM none none st0 goodReq []).1
    ⟨{ id := 1, request_number := 1001, request_date_jalali := "1402/01/01",
       request_date_gregorian := 20230321, requesting_unit := "برق",
       requester_name := "احمدی", pdf_file_path := "a.pdf", year := 1402,
       month := 1, month_name := "فروردین", status := "pending",
       deleted_at := none }, by decide⟩
    ⟨[], rfl⟩

/-- C3: `update_request_status` rejects a status outside the enumeration
with the message listing the valid values, without acquiring a connection
(the result does not depend on the manager at all) and without touching
state; for a valid status matching zero rows it reports not-found. -/
theorem update_status_validation (m : Manager) (st : DBState) (rid : Nat)
    (s : String) :
    (s ∉ valid_statuses →
       update_request_status m st rid s = ((false, some msg_invalid_status), st) ∧
       (∀ m', update_request_status m' st rid s = update_request_status m st rid s) ∧
       msg_invalid_status =
         "وضعیت نامعتبر. مقادیر مجاز: pending, approved, rejected, completed") ∧
    (s ∈ valid_statuses → m.pool_present = true → m.pool_acquire_ok = true →
       (∀ r ∈ st.requests, r.id ≠ rid) →
       update_request_status m st rid s =
         ((false, some msg_status_not_found), st)) := by
  constructor
  · intro h
    refine ⟨?_, ?_, by decide⟩
    · unfold update_request_status
      simp [h]
    · intro m'
      unfold update_request_status
      simp [h]
  · intro h hp ha hn
    unfold update_request_status
    simp [h, hp, ha]
    exact hn

/-- C3 witness: `"archived"` is rejected with the enumeration message on a
concrete state; `"approved"` on the empty table reports not-found. -/
theorem update_status_validation_witness :
    update_request_status connM st0 1 "archived" =
      ((false, some msg_invalid_status), st0) ∧
    update_request_status connM st0 1 "approved" =
      ((false, some msg_status_not_found), st0) := by
  constructor
  · exact ((update_status_validation connM st0 1 "archived").1 (by decide)).1
  · exact (update_status_validation connM st0 1 "approved").2 (by decide) rfl rfl
      (by intro r hr; cases hr)

/-- The state reached by saving `archReq` (status `"archived"`) into the
empty database — a reachable state with an out-of-enumeration status. -/
def stArch : DBState := (save_request connM none none st0 archReq []).2

/-- C4 counterexample: in the reachable state `stArch` the statistics
totals do not add up — `total = 1` while the four status counters sum
to `0`. -/
theorem get_statistics_invariant_fails :
    (get_statistics connM stArch).total = 1 ∧
    (get_statistics connM stArch).pending + (get_statistics connM stArch).approved +
      (get_statistics connM stArch).rejected +
      (get_statistics connM stArch).completed = 0 := by
  decide

/-- Counting helper: over rows whose active statuses all lie in
`valid_statuses`, the active count splits into the four per-status
counts. -/
theorem countP_status_partition : ∀ (l : List RequestRow),
    (∀ r ∈ l, r.deleted_at = none → r.status ∈ valid_statuses) →
    l.countP (fun r => r.deleted_at.isNone) =
      l.countP (fun r => r.status == "pending" && r.deleted_at.isNone) +
      l.countP (fun r => r.status == "approved" && r.deleted_at.isNone) +
      l.countP (fun r => r.status == "rejected" && r.deleted_at.isNone) +
      l.countP (fun r => r.status == "completed" && r.deleted_at.isNone) := by
  intro l
  induction l with
  | nil => intro _; rfl
  | cons a t ih =>
    intro h
    have key := ih (fun r hr => h r (List.mem_cons_of_mem a hr))
    simp only [List.countP_cons]
    by_cases hd : a.deleted_at = none
    · have hs := h a (List.mem_cons_self a t) hd
      simp only [valid_statuses, List.mem_cons, List.not_mem_nil, or_false] at hs
      rcases hs with h1 | h1 | h1 | h1 <;> simp [h1, hd, key] <;> omega
    · have hd2 : a.deleted_at.isNone = false := by
        cases hda : a.deleted_at with
        | none => exact absurd hda hd
        | some v => rfl
      simp [hd2, key]

/-- C4 (amended): the statistics invariant
`total = pending + approved + rejected + completed` holds in every state in
which each active request's status lies in the valid enumeration; it fails
in reachable states containing an active request whose status was saved
outside the enumeration (which `save_request` permits). -/
theorem get_statistics_invariant (m : Manager) (st : DBState)
    (h : ∀ r ∈ st.requests, r.deleted_at = none → r.status ∈ valid_statuses) :
    (get_statistics m st).total =
      (get_statistics m st).pending + (get_statistics m st).approved +
      (get_statistics m st).rejected + (get_statistics m st).completed := by
  unfold get_statistics
  split
  · rfl
  split
  · rfl
  exact countP_status_partition st.requests h

/-- The state reached by saving `goodReq` (defaulted status `"pending"`)
into the empty database. -/
def stGood : DBState := (save_request connM none none st0 goodReq [item1]).2

/-- C4 witness: the invariant holds on the reachable state whose one
request has status `"pending"`. -/
theorem get_statistics_invariant_witness :
    (get_statistics connM stGood).total =
      (get_statistics connM stGood).pending + (get_statistics connM stGood).approved +
      (get_statistics connM stGood).rejected +
      (get_statistics connM stGood).completed :=
  get_statistics_invariant connM stGood (by decide)

/-- A soft-deleted request row. -/
def delRow : RequestRow :=
  ⟨1, 1001, "1402/01/01", 20230321, "برق", "احمدی", "a.pdf", 1402, 1,
   "فروردین", "pending", some 99⟩

/-- The database holding one soft-deleted request. -/
def stDel : DBState := ⟨[delRow], [], 2, 1⟩

/-- C5: `restore_request` succeeds exactly when some row with the id is
currently soft-deleted, and then every row with that id becomes active
with no row added or removed; on an already-active or absent id it
returns the failure result with the state untouched. -/
theorem restore_request_spec (m : Manager) (st : DBState) (rid : Nat)
    (hc : m.is_connected = true) (hh : m.hasConn = true) :
    ((∃ r ∈ st.requests, r.id = rid ∧ r.deleted_at.isSome) →
       (restore_request m st rid).1 = (true, none) ∧
       (∀ r ∈ (restore_request m st rid).2.requests, r.id = rid → r.deleted_at = none) ∧
       (restore_request m st rid).2.requests.length = st.requests.length) ∧
    ((∀ r ∈ st.requests, r.id = rid → r.deleted_at = none) →
       restore_request m st rid = ((false, some msg_restore_not_found), st)) := by
  constructor
  · intro h
    have hcond : (st.requests.any (fun r => r.id == rid && r.deleted_at.isSome)) = true := by
      obtain ⟨r, hr, hid, hdel⟩ := h
      rw [List.any_eq_true]
      exact ⟨r, hr, by simp [hid, hdel]⟩
    have hres : restore_request m st rid =
        ((true, none),
         { st with requests := st.requests.map (fun r =>
             if r.id == rid && r.deleted_at.isSome then
               { r with deleted_at := none } else r) }) := by
      unfold restore_request
      simp [hc, hh, hcond]
    refine ⟨by rw [hres], ?_, ?_⟩
    · intro r hr hrid
      rw [hres] at hr
      rw [List.mem_map] at hr
      obtain ⟨x, hx, hxr⟩ := hr
      by_cases hxc : (x.id == rid && x.deleted_at.isSome) = true
      · rw [if_pos hxc] at hxr
        rw [← hxr]
      · rw [if_neg hxc] at hxr
        subst hxr
        have hid : (x.id == rid) = true := by simp [hrid]
        rw [Bool.and_eq_true, not_and] at hxc
        have hnd := hxc hid
        cases hrd : x.deleted_at with
        | none => rfl
        | some v => rw [hrd] at hnd; exact absurd rfl hnd
    · rw [hres]
      exact List.length_map st.requests _
  · intro h
    have hcond : (st.requests.any (fun r => r.id == rid && r.deleted_at.isSome)) = false := by
      rw [List.any_eq_false]
      intro r hr
      intro hcontra
      rw [Bool.and_eq_true] at hcontra
      obtain ⟨hid, hdel⟩ := hcontra
      have : r.id = rid := by simpa using hid
      rw [h r hr this] at hdel
      cases hdel
    unfold restore_request
    simp [hc, hh, hcond]

/-- C5 witness: restoring the soft-deleted row succeeds; restoring an id
absent from the empty table fails with the no-op error. -/
theorem restore_request_spec_witness :
    (restore_request connM stDel 1).1 = (true, none) ∧
    restore_request connM st0 1 = ((false, some msg_restore_not_found), st0) := by
  constructor
  · exact ((restore_request_spec connM stDel 1 rfl rfl).1
      ⟨delRow, by decide, rfl, rfl⟩).1
  · exact (restore_request_spec connM st0 1 rfl rfl).2 (by intro r hr; cases hr)

/-- C6 counterexample: in the state after failed pool construction
(`downM`), `update_request_status` does not short-circuit with the
not-connected error used by the flag-consulting operations — it returns
the generic wrapped-exception message (and `test_connection` returns a
bare `false` with no error at all). -/
theorem update_status_no_not_connected_error :
    (update_request_status downM st0 1 "approved").1 =
      (false, some ("خطا در تغییر وضعیت: " ++ attrErrorMsg)) ∧
    ("خطا در تغییر وضعیت: " ++ attrErrorMsg) ≠ msg_not_connected ∧
    test_connection downM true = false := by
  decide

/-- C6 (amended): after failed pool construction the flag is false and the
pool is absent; the operations that consult the flag short-circuit with
their not-connected results, while `update_request_status` instead fails
by catching the attribute error of the absent pool (a generic message, not
the not-connected one) and `test_connection` returns plain `false` —
neither consults the flag, though neither uses a broken pool. -/
theorem disconnected_short_circuit (m : Manager) (st : DBState)
    (hc : m.is_connected = false) (hp : m.pool_present = false) :
    (∀ rf itf rd items, save_request m rf itf st rd items =
        (.ok (false, none, some msg_not_connected), st)) ∧
    (∀ rid, restore_request m st rid = ((false, some msg_not_connected), st)) ∧
    (∀ n, check_duplicate_request_number m st n = (false, none)) ∧
    (∀ f incl, search_requests m st f incl = []) ∧
    (get_statistics m st = zeroStats) ∧
    (∀ rid, get_request_by_id m st rid = none) ∧
    (∀ n, get_request_by_number m st n = none) ∧
    (∀ q, search_in_items m st q = (none, some msg_items_not_connected)) ∧
    (∀ rid s, s ∈ valid_statuses →
       update_request_status m st rid s =
         ((false, some ("خطا در تغییر وضعیت: " ++ attrErrorMsg)), st)) ∧
    (∀ q, test_connection m q = false) := by
  refine ⟨?_, ?_, ?_, ?_, ?_, ?_, ?_, ?_, ?_, ?_⟩
  · intro rf itf rd items; unfold save_request; simp [hc]
  · intro rid; unfold restore_request; simp [hc]
  · intro n; unfold check_duplicate_request_number; simp [hc]
  · intro f incl; unfold search_requests; simp [hc]
  · unfold get_statistics; simp [hc]
  · intro rid; unfold get_request_by_id; simp [hc]
  · intro n; unfold get_request_by_number; simp [hc]
  · intro q; unfold search_in_items; simp [hc]
  · intro rid s hs; unfold update_request_status; simp [hs, hp]
  · intro q; unfold test_connection; simp [Manager.hasConn, hp]

/-- C6 witness: at the concrete post-failure manager, `save_request`
returns the not-connected triple while `update_request_status` returns
the generic exception-wrapping message. -/
theorem disconnected_short_circuit_witness :
    save_request downM none none st0 goodReq [] =
      (.ok (false, none, some msg_not_connected), st0) ∧
    update_request_status downM st0 1 "approved" =
      ((false, some ("خطا در تغییر وضعیت: " ++ attrErrorMsg)), st0) := by
  have h := disconnected_short_circuit downM st0 rfl rfl
  exact ⟨h.1 none none goodReq [],
    h.2.2.2.2.2.2.2.2.1 1 "approved" (by decide)⟩

/-- Inverts a successful monadic bind over a dict access. -/
theorem bind_getKey_ok {α β : Type} {k : String} {o : Option α}
    {f : α → Except String β} {r : β}
    (h : (getKey k o >>= f) = .ok r) : ∃ v, o = some v ∧ f v = .ok r := by
  cases o with
  | none => simp [getKey, Bind.bind, Except.bind] at h
  | some v => exact ⟨v, rfl, by simpa [getKey, Bind.bind, Except.bind] using h⟩

/-- The row built by `save_request` carries
`request_data.get` of the status key (default pending) verbatim. -/
theorem buildRequestRow_status (rid : Nat) (d : ReqDict) (row : RequestRow)
    (h : buildRequestRow rid d = .ok row) :
    row.status = d.status.getD "pending" := by
  unfold buildRequestRow at h
  obtain ⟨n, hn, h⟩ := bind_getKey_ok h
  obtain ⟨dj, hdj, h⟩ := bind_getKey_ok h
  obtain ⟨dg, hdg, h⟩ := bind_getKey_ok h
  obtain ⟨ru, hru, h⟩ := bind_getKey_ok h
  obtain ⟨rn, hrn, h⟩ := bind_getKey_ok h
  obtain ⟨pf, hpf, h⟩ := bind_getKey_ok h
  obtain ⟨y, hy, h⟩ := bind_getKey_ok h
  obtain ⟨mo, hmo, h⟩ := bind_getKey_ok h
  obtain ⟨mn, hmn, h⟩ := bind_getKey_ok h
  simp only [pure, Except.pure, Except.ok.injEq] at h
  rw [← h]

/-- C9: `save_request` does not validate the status value — on every
successful save, the stored row status is exactly the `status` value of the dict
value (whatever it is, valid or not), and `"pending"` is used only when
the key is absent. -/
theorem save_request_status_verbatim (m : Manager) (rf itf : Option String)
    (st : DBState) (rd : ReqDict) (items : List ItemDict) (rid : Nat)
    (h : (save_request m rf itf st rd items).1 = .ok (true, some rid, none)) :
    ∃ row, (save_request m rf itf st rd items).2.requests = st.requests ++ [row] ∧
      (∀ s, rd.status = some s → row.status = s) ∧
      (rd.status = none → row.status = "pending") := by
  rcases save_request_cases m rf itf st rd items with
    ⟨row, itemRows, hrow, hitems, heq⟩ | ⟨hst, hne⟩
  · refine ⟨row, by rw [heq]; rfl, ?_, ?_⟩
    · intro s hs
      rw [buildRequestRow_status _ _ _ hrow, hs]
      rfl
    · intro hs
      rw [buildRequestRow_status _ _ _ hrow, hs]
      rfl
  · exact absurd h (hne rid)

/-- C9 witness: saving `archReq` stores the out-of-enumeration status
`"archived"` verbatim. -/
theorem save_request_status_verbatim_witness :
    (∃ row, (save_request connM none none st0 archReq []).2.requests =
        st0.requests ++ [row] ∧
      (∀ s, archReq.status = some s → row.status = s) ∧
      (archReq.status = none → row.status = "pending")) ∧
    "archived" ∉ valid_statuses :=
  ⟨save_request_status_verbatim connM none none st0 archReq [] 1 (by decide),
   by decide⟩

/-- The `request_number` clause fires exactly when present and truthy. -/
theorem matchReqNum_iff (o : Option Nat) (r : RequestRow) :
    matchReqNum o r = true ↔ ∀ n, o = some n → n ≠ 0 → r.request_number = n := by
  cases o with
  | none => simp [matchReqNum]
  | some n =>
    by_cases h : n = 0
    · subst h; simp [matchReqNum]
    · simp [matchReqNum, h]

/-- The `requester_name` clause fires exactly when present and truthy. -/
theorem matchRequester_iff (o : Option String) (r : RequestRow) :
    matchRequester o r = true ↔
      ∀ s, o = some s → s ≠ "" → ciContains r.requester_name s = true := by
  cases o with
  | none => simp [matchRequester]
  | some s =>
    by_cases h : s = ""
    · subst h; simp [matchRequester]
    · simp [matchRequester, h]

/-- The `requesting_unit` clause fires exactly when present and truthy. -/
theorem matchUnit_iff (o : Option String) (r : RequestRow) :
    matchUnit o r = true ↔
      ∀ s, o = some s → s ≠ "" → ciContains r.requesting_unit s = true := by
  cases o with
  | none => simp [matchUnit]
  | some s =>
    by_cases h : s = ""
    · subst h; simp [matchUnit]
    · simp [matchUnit, h]

/-- The `year` clause fires exactly when present and truthy. -/
theorem matchYear_iff (o : Option Int) (r : RequestRow) :
    matchYear o r = true ↔ ∀ y, o = some y → y ≠ 0 → r.year = y := by
  cases o with
  | none => simp [matchYear]
  | some y =>
    by_cases h : y = 0
    · subst h; simp [matchYear]
    · simp [matchYear, h]

/-- The `month` clause fires exactly when present and truthy. -/
theorem matchMonth_iff (o : Option Int) (r : RequestRow) :
    matchMonth o r = true ↔ ∀ mo, o = some mo → mo ≠ 0 → r.month = mo := by
  cases o with
  | none => simp [matchMonth]
  | some mo =>
    by_cases h : mo = 0
    · subst h; simp [matchMonth]
    · simp [matchMonth, h]

/-- The `status` clause fires exactly when present and truthy. -/
theorem matchStatus_iff (o : Option String) (r : RequestRow) :
    matchStatus o r = true ↔ ∀ s, o = some s → s ≠ "" → r.status = s := by
  cases o with
  | none => simp [matchStatus]
  | some s =>
    by_cases h : s = ""
    · subst h; simp [matchStatus]
    · simp [matchStatus, h]

/-- The lower date bound is inclusive and fires when present. -/
theorem matchDateFrom_iff (o : Option Int) (r : RequestRow) :
    matchDateFrom o r = true ↔ ∀ d, o = some d → d ≤ r.request_date_gregorian := by
  cases o with
  | none => simp [matchDateFrom]
  | some d => simp [matchDateFrom]

/-- The upper date bound is inclusive and fires when present. -/
theorem matchDateTo_iff (o : Option Int) (r : RequestRow) :
    matchDateTo o r = true ↔ ∀ d, o = some d → r.request_date_gregorian ≤ d := by
  cases o with
  | none => simp [matchDateTo]
  | some d => simp [matchDateTo]

/-- C7: `search_requests` returns exactly the rows passing the active
filters (each clause applied only when its key is present and non-empty;
names matched as case-insensitive substrings; dates as an inclusive
range), each carrying its left-joined item count (0 for no items),
excluding soft-deleted rows unless `include_deleted`, sorted by
`request_number` descending. -/
theorem search_requests_spec (m : Manager) (st : DBState) (f : Filters)
    (incl : Bool) (hc : m.is_connected = true) (hh : m.hasConn = true) :
    List.Sorted reqNumDesc (search_requests m st f incl) ∧
    List.Perm (search_requests m st f incl)
      ((st.requests.filter (fun r =>
          (incl || r.deleted_at.isNone) && matchesFilters f r)).map
        (fun r => { request := r,
                    items_count :=
                      (st.items.filter (fun i => i.request_id == r.id)).length })) ∧
    (∀ r : RequestRow, matchesFilters f r = true ↔
       ((∀ n, f.request_number = some n → n ≠ 0 → r.request_number = n) ∧
        (∀ s, f.requester_name = some s → s ≠ "" →
           ciContains r.requester_name s = true) ∧
        (∀ s, f.requesting_unit = some s → s ≠ "" →
           ciContains r.requesting_unit s = true) ∧
        (∀ y, f.year = some y → y ≠ 0 → r.year = y) ∧
        (∀ mo, f.month = some mo → mo ≠ 0 → r.month = mo) ∧
        (∀ s, f.status = some s → s ≠ "" → r.status = s) ∧
        (∀ d, f.date_from = some d → d ≤ r.request_date_gregorian) ∧
        (∀ d, f.date_to = some d → r.request_date_gregorian ≤ d))) := by
  have hres : search_requests m st f incl =
      List.insertionSort reqNumDesc
        ((st.requests.filter (fun r =>
            (incl || r.deleted_at.isNone) && matchesFilters f r)).map
          (fun r => { request := r,
                      items_count :=
                        (st.items.filter (fun i => i.request_id == r.id)).length })) := by
    unfold search_requests
    simp [hc, hh]
  refine ⟨?_, ?_, ?_⟩
  · rw [hres]
    exact List.sorted_insertionSort reqNumDesc _
  · rw [hres]
    exact List.perm_insertionSort reqNumDesc _
  · intro r
    unfold matchesFilters
    rw [Bool.and_eq_true, Bool.and_eq_true, Bool.and_eq_true, Bool.and_eq_true,
      Bool.and_eq_true, Bool.and_eq_true, Bool.and_eq_true,
      matchReqNum_iff, matchRequester_iff, matchUnit_iff, matchYear_iff,
      matchMonth_iff, matchStatus_iff, matchDateFrom_iff, matchDateTo_iff]
    tauto

/-- The all-absent filter dict. -/
def noFilters : Filters := ⟨none, none, none, none, none, none, none, none⟩

/-- C7 witness: on the concrete soft-deleted single-row state, the result
with `include_deleted = true` is sorted, and evaluates to that row with a
zero item count; with `include_deleted = false` it is empty. -/
theorem search_requests_spec_witness :
    List.Sorted reqNumDesc (search_requests connM stDel noFilters true) ∧
    search_requests connM stDel noFilters true = [⟨delRow, 0⟩] ∧
    search_requests connM stDel noFilters false = [] := by
  refine ⟨(search_requests_spec connM stDel noFilters true rfl rfl).1, ?_, ?_⟩
  · decide
  · decide

/-- C8: when the database is not connected (or no connection can be
acquired), `check_duplicate_request_number` answers `(false, none)` — the
very same value a connected check returns when no active duplicate
exists, so the caller cannot tell the two situations apart. -/
theorem check_duplicate_indistinguishable (m : Manager) (st : DBState) (n : Nat) :
    (m.is_connected = false ∨ m.hasConn = false →
       check_duplicate_request_number m st n = (false, none)) ∧
    (∀ m' st', m'.is_connected = true → m'.hasConn = true →
       (∀ r ∈ st'.requests, ¬(r.request_number = n ∧ r.deleted_at = none)) →
       check_duplicate_request_number m' st' n = (false, none)) := by
  constructor
  · intro h
    unfold check_duplicate_request_number
    rcases h with h | h
    · simp [h]
    · cases hc : m.is_connected <;> simp [h, hc]
  · intro m' st' hc hh hnone
    have hfind : st'.requests.find? (fun r =>
        r.request_number == n && r.deleted_at.isNone) = none := by
      rw [List.find?_eq_none]
      intro x hx hcontra
      rw [Bool.and_eq_true] at hcontra
      exact hnone x hx ⟨by simpa using hcontra.1,
        Option.isNone_iff_eq_none.mp hcontra.2⟩
    unfold check_duplicate_request_number
    simp [hc, hh, hfind]

/-- C8 witness: on the state holding an active request numbered 1001, the
disconnected check answers `(false, none)`, identical to the connected
answer of the connected check on the empty database — while the connected check on the
same populated state does report the duplicate. -/
theorem check_duplicate_indistinguishable_witness :
    check_duplicate_request_number downM stGood 1001 = (false, none) ∧
    check_duplicate_request_number connM st0 1001 = (false, none) ∧
    (check_duplicate_request_number connM stGood 1001).1 = true := by
  refine ⟨?_, ?_, by decide⟩
  · exact (check_duplicate_indistinguishable downM stGood 1001).1 (Or.inl rfl)
  · exact (check_duplicate_indistinguishable connM st0 1001).2 connM st0 rfl rfl
      (by intro r hr; cases hr)

/-- C10: point lookups and the item search ignore the soft-delete stamp:
a soft-deleted request is still returned by `get_request_by_id` and
`get_request_by_number`, and its items still match in `search_in_items` —
even though `search_requests` with `include_deleted = false` excludes the
very same row. -/
theorem deleted_rows_visible (m : Manager) (st : DBState) (r : RequestRow)
    (q : String) (hc : m.is_connected = true) (hp : m.pool_present = true)
    (ha : m.pool_acquire_ok = true) (t : Int) (hdel : r.deleted_at = some t)
    (hfid : st.requests.find? (fun x => x.id == r.id) = some r)
    (hfnum : st.requests.find? (fun x =>
        x.request_number == r.request_number) = some r) :
    (∃ its, get_request_by_id m st r.id = some (r, its)) ∧
    get_request_by_number m st r.request_number = some r ∧
    (∀ ri ∈ st.items, ri.request_id = r.id → ciContains ri.description q = true →
       ∃ res, (search_in_items m st q).1 = some res ∧ mkItemSearchRow r ri ∈ res) ∧
    (∀ f p, p ∈ search_requests m st f false → p.request ≠ r) := by
  have hh : m.hasConn = true := by simp [Manager.hasConn, hp, ha]
  have hrmem : r ∈ st.requests := List.mem_of_find?_eq_some hfid
  refine ⟨?_, ?_, ?_, ?_⟩
  · unfold get_request_by_id
    simp [hc, hh, hfid]
  · unfold get_request_by_number
    simp [hc, hh, hfnum]
  · intro ri hri hrid hmatch
    have hjoin : search_in_items m st q =
        (some (List.insertionSort itemSearchOrder
          (st.requests.flatMap (fun pr =>
            (st.items.filter (fun i =>
                i.request_id == pr.id &&
                  (ciContains i.description q || ciContains i.notes q))).map
              (fun i => mkItemSearchRow pr i))).dedup), none) := by
      unfold search_in_items
      simp [hc, hp, ha]
    refine ⟨_, by rw [hjoin], ?_⟩
    rw [(List.perm_insertionSort itemSearchOrder _).mem_iff, List.mem_dedup,
      List.mem_flatMap]
    refine ⟨r, hrmem, List.mem_map_of_mem _ (List.mem_filter.mpr ⟨hri, ?_⟩)⟩
    simp [hrid, hmatch]
  · intro f p hpmem hpr
    have hres : search_requests m st f false =
        List.insertionSort reqNumDesc
          ((st.requests.filter (fun x =>
              (false || x.deleted_at.isNone) && matchesFilters f x)).map
            (fun x => { request := x,
                        items_count :=
                          (st.items.filter (fun i => i.request_id == x.id)).length })) := by
      unfold search_requests
      simp [hc, hh]
    rw [hres, (List.perm_insertionSort reqNumDesc _).mem_iff, List.mem_map] at hpmem
    obtain ⟨x, hxf, hxp⟩ := hpmem
    rw [List.mem_filter, Bool.and_eq_true] at hxf
    have hxr : x = r := by rw [← hpr, ← hxp]
    have hact := hxf.2.1
    rw [hxr, hdel] at hact
    simp at hact

/-- An item row owned by the soft-deleted request `delRow`. -/
def delItem : ItemRow := ⟨1, 1, 1, "کابل برق", 10, "متر", "تهران", "-"⟩

/-- The database holding the soft-deleted request and its one item. -/
def stDel2 : DBState := ⟨[delRow], [delItem], 2, 2⟩

/-- C10 witness: the concrete soft-deleted row is returned by both point
lookups, its item is matched by the item search, and the default search
excludes it. -/
theorem deleted_rows_visible_witness :
    (∃ its, get_request_by_id connM stDel2 delRow.id = some (delRow, its)) ∧
    get_request_by_number connM stDel2 delRow.request_number = some delRow ∧
    (∀ ri ∈ stDel2.items, ri.request_id = delRow.id →
       ciContains ri.description "کابل" = true →
       ∃ res, (search_in_items connM stDel2 "کابل").1 = some res ∧
         mkItemSearchRow delRow ri ∈ res) ∧
    (∀ f p, p ∈ search_requests connM stDel2 f false → p.request ≠ delRow) :=
  deleted_rows_visible connM stDel2 delRow "کابل" rfl rfl rfl 99 rfl
    (by decide) (by decide)
